import Mathlib

/-! Formal model of the SUPERFAST track-management repository: the tracking-number
generator (CreateTrack), the track ledger operations (TrackDetail), the dashboard
aggregate counts (Dashboard), and the list filtering and sorting (TrackList).
Strings are modelled by Lean strings and character lists; timestamptz values by
natural-number epoch milliseconds; the record store by explicit lists of rows. -/

/-- Digit characters used by JavaScript Number.toString(36): 0-9 then a-z
(character codes 48-57 and 97-122). -/
def base36Digit (n : Nat) : Char :=
  if n < 10 then Char.ofNat (48 + n) else Char.ofNat (87 + n)

/-- Accumulating digit loop of the base-36 rendering, structurally recursive on
a fuel argument that bounds the number of digits. -/
def natToBase36Core : Nat → Nat → List Char → List Char
  | 0, _, ds => ds
  | fuel + 1, n, ds =>
    let d := base36Digit (n % 36)
    let m := n / 36
    if m = 0 then d :: ds
    else natToBase36Core fuel m (d :: ds)

/-- Date.now().toString(36) on a natural number: most-significant-first base-36
digit characters, a single digit 0 for zero. -/
def natToBase36 (n : Nat) : List Char :=
  natToBase36Core (n + 1) n []

/-- JavaScript String.prototype.substring(a, b) for a ≤ b (the code calls it with
2 and 6): the characters at indices a up to excluding b, clamped to the string. -/
def jsSubstring (s : List Char) (a b : Nat) : List Char :=
  (s.drop a).take (b - a)

/-- Characters of Math.random().toString(36) for a random value r in the range
from 0 inclusive to 1 exclusive, the randomness source being represented by the
list ds of base-36 fraction digits that toString produces: the string is 0 when
ds is empty (r = 0) and otherwise 0. followed by the digits. -/
def randBase36String (ds : List Char) : List Char :=
  if ds = [] then ['0'] else '0' :: '.' :: ds

/-- generateTrackingNumber from CreateTrack: the fixed TRK literal,
Date.now().toString(36).toUpperCase(), and
Math.random().toString(36).substring(2, 6).toUpperCase(), joined by dashes.
The wall clock is the millisecond timestamp now; the randomness source is the
base-36 fraction digit list ds of the random value. -/
def generateTrackingNumber (now : Nat) (ds : List Char) : List Char :=
  let pfx := ['T', 'R', 'K']
  let timestamp := (natToBase36 now).map Char.toUpper
  let random := (jsSubstring (randBase36String ds) 2 6).map Char.toUpper
  pfx ++ ['-'] ++ timestamp ++ ['-'] ++ random

/-- The output shape asserted by claim C5, following the claim text: the TRK
literal, the base-36 uppercase timestamp, and an exactly-4-character suffix,
joined by dashes. Stated separately to be compared with the source definition
generateTrackingNumber. -/
def specTrackingShape (now : Nat) (s : List Char) : Prop :=
  ∃ sfx : List Char, sfx.length = 4 ∧
    s = ['T', 'R', 'K', '-'] ++ (natToBase36 now).map Char.toUpper ++ ['-'] ++ sfx

/-- Claim C5 counterexample: when the random value is 0 (an admissible value of
Math.random(), whose toString(36) is the single character 0), the suffix taken by
substring(2, 6) is empty, so the generated string TRK-0- does not have the
claimed shape with an exactly-4-character random part. -/
theorem generateTrackingNumber_zero_random_breaks_shape :
    generateTrackingNumber 0 [] = ['T', 'R', 'K', '-', '0', '-'] ∧
    ¬ specTrackingShape 0 (generateTrackingNumber 0 []) := by
  refine ⟨by decide, ?_⟩
  rintro ⟨sfx, hlen, hs⟩
  have h6 : (['T', 'R', 'K', '-'] ++ (natToBase36 0).map Char.toUpper ++ ['-'] ++
      sfx).length = 6 := by
    rw [← hs]; decide
  have h0 : (natToBase36 0).length = 1 := by decide
  simp [List.length_append] at h6
  omega

/-- Claim C5 as amended: whenever the random value's base-36 expansion has at
least 4 fraction digits (every case except the measure-zero short expansions),
the generator returns exactly the TRK literal, the uppercased base-36 timestamp,
and the first 4 fraction digits uppercased as a 4-character suffix, joined by
dashes; so the generated string has the claimed shape. -/
theorem generateTrackingNumber_shape (now : Nat) (ds : List Char)
    (h : 4 ≤ ds.length) :
    generateTrackingNumber now ds =
      ['T', 'R', 'K', '-'] ++ (natToBase36 now).map Char.toUpper ++ ['-'] ++
        (ds.take 4).map Char.toUpper ∧
    ((ds.take 4).map Char.toUpper).length = 4 := by
  rcases ds with _ | ⟨a, _ | ⟨b, _ | ⟨c, _ | ⟨d, tl⟩⟩⟩⟩ <;> simp at h
  constructor
  · simp [generateTrackingNumber, randBase36String, jsSubstring]
  · simp

/-- Witness for the amended claim C5 theorem at a concrete timestamp and a
concrete 4-digit random expansion. -/
theorem generateTrackingNumber_shape_witness :
    generateTrackingNumber 37 ['a', 'b', 'c', 'd'] =
      ['T', 'R', 'K', '-'] ++ (natToBase36 37).map Char.toUpper ++ ['-'] ++
        (['a', 'b', 'c', 'd'].take 4).map Char.toUpper ∧
    ((['a', 'b', 'c', 'd'].take 4).map Char.toUpper).length = 4 :=
  generateTrackingNumber_shape 37 ['a', 'b', 'c', 'd'] (by decide)

/-- A row of the tracks table, the columns used by the components (schema in the
migration file; timestamptz columns modelled as epoch milliseconds). -/
structure Track where
  id : String
  title : String
  description : String
  status : String
  priority : String
  tracking_number : String
  user_id : String
  created_at : Nat
  updated_at : Nat
deriving DecidableEq

/-- A row of the track_updates table. -/
structure TrackUpdate where
  id : String
  track_id : String
  status : String
  message : String
  location : String
  user_id : String
  created_at : Nat
deriving DecidableEq

/-- The record store: the tracks and track_updates tables as lists of rows. -/
structure StoreState where
  tracks : List Track
  track_updates : List TrackUpdate
deriving DecidableEq

/-- A request issued against the record store by a handler. -/
inductive StoreRequest where
  | insertTrack (t : Track)
  | insertUpdate (u : TrackUpdate)
  | writeTrackStatus (trackId : String) (status : String)
deriving DecidableEq

/-- The updateForm state of TrackDetail: status, message, location. -/
structure UpdateForm where
  status : String
  message : String
  location : String
deriving DecidableEq

/-- The editForm state of TrackDetail: title, description, status, priority. -/
structure EditForm where
  title : String
  description : String
  status : String
  priority : String
deriving DecidableEq

/-- The form state of CreateTrack: title, description, status, priority. -/
structure CreateForm where
  title : String
  description : String
  status : String
  priority : String
deriving DecidableEq

/-- Effect on the tracks table of a supabase update(..).eq(id, trackId) request:
the provided fields overwrite the matching rows, and the update_tracks_updated_at
trigger from the migration sets updated_at to now on every written row. -/
def updateTrackRows (ts : List Track) (trackId : String) (f : Track → Track)
    (now : Nat) : List Track :=
  ts.map fun t => if t.id = trackId then { f t with updated_at := now } else t

/-- handleAddUpdate from TrackDetail: inserts a track_updates row carrying the
form status, message and location, and only when that insert returned no error,
writes the parent track row's status to the same form status (the trigger
refreshing its updated_at). The booleans insertFails and writeFails model the
record store rejecting each request; newId and now are the id and timestamp the
store assigns to the inserted row. Returns the resulting store state together
with the requests issued, in issue order. -/
def handleAddUpdate (st : StoreState) (trackId : String) (form : UpdateForm)
    (userId : String) (newId : String) (now : Nat)
    (insertFails : Bool) (writeFails : Bool) : StoreState × List StoreRequest :=
  let u : TrackUpdate :=
    { id := newId, track_id := trackId, status := form.status,
      message := form.message, location := form.location,
      user_id := userId, created_at := now }
  if insertFails then (st, [StoreRequest.insertUpdate u])
  else
    let st1 : StoreState := { st with track_updates := u :: st.track_updates }
    let st2 : StoreState :=
      if writeFails then st1
      else { st1 with
              tracks := updateTrackRows st1.tracks trackId
                (fun t => { t with status := form.status }) now }
    (st2, [StoreRequest.insertUpdate u,
           StoreRequest.writeTrackStatus trackId form.status])

/-- handleUpdateTrack from TrackDetail: overwrites title, description, status and
priority of the track row with the edit form values (trigger refreshing
updated_at); fails models the store rejecting the request, leaving the state
unchanged. -/
def handleUpdateTrack (st : StoreState) (trackId : String) (form : EditForm)
    (now : Nat) (fails : Bool) : StoreState :=
  if fails then st
  else
    { st with
        tracks := updateTrackRows st.tracks trackId
          (fun t =>
            { t with title := form.title, description := form.description,
                     status := form.status, priority := form.priority }) now }

/-- handleSubmit from CreateTrack: generates a tracking number from the wall
clock and the randomness source and issues exactly one insert request for a
track row carrying the form fields verbatim and that tracking number; the
handler itself contains no validation of the form. insertFails models the store
rejecting the insert (for example the tracking_number uniqueness constraint), in
which case the state is unchanged and the error message is shown. Returns the
resulting store state together with the requests issued. -/
def handleSubmit (st : StoreState) (form : CreateForm) (userId : String)
    (newId : String) (now : Nat) (rnd : List Char)
    (insertFails : Bool) : StoreState × List StoreRequest :=
  let t : Track :=
    { id := newId, title := form.title, description := form.description,
      status := form.status, priority := form.priority,
      tracking_number := String.mk (generateTrackingNumber now rnd),
      user_id := userId, created_at := now, updated_at := now }
  if insertFails then (st, [StoreRequest.insertTrack t])
  else ({ st with tracks := t :: st.tracks }, [StoreRequest.insertTrack t])

/-- Sample track row used in concrete witnesses and counterexamples. -/
def sampleTrack : Track :=
  { id := "t1", title := "Ship widget", description := "", status := "pending",
    priority := "medium", tracking_number := "TRK-0-AAAA", user_id := "u1",
    created_at := 1, updated_at := 1 }

/-- Claim C1: when the append-update operation completes successfully (neither
of its two store requests rejected), every track row carrying the target id has
its status field equal to the status passed at append time. -/
theorem handleAddUpdate_sets_status (st : StoreState) (trackId : String)
    (form : UpdateForm) (userId newId : String) (now : Nat) (t : Track)
    (ht : t ∈ (handleAddUpdate st trackId form userId newId now false false).1.tracks)
    (hid : t.id = trackId) : t.status = form.status := by
  simp only [handleAddUpdate, updateTrackRows, Bool.false_eq_true, if_false,
    List.mem_map] at ht
  obtain ⟨t0, _, hmap⟩ := ht
  by_cases h : t0.id = trackId
  · rw [if_pos h] at hmap
    rw [← hmap]
  · rw [if_neg h] at hmap
    rw [← hmap] at hid
    exact absurd hid h

/-- Witness for the claim C1 theorem: a concrete one-track store, appending a
completed update to the pending track leaves the row status completed. -/
theorem handleAddUpdate_sets_status_witness :
    ({ sampleTrack with status := "completed", updated_at := 5 } : Track).status
      = "completed" :=
  handleAddUpdate_sets_status ⟨[sampleTrack], []⟩ "t1" ⟨"completed", "", ""⟩
    "u1" "up1" 5 { sampleTrack with status := "completed", updated_at := 5 }
    (by decide) (by decide)

/-- Tests whether a store request is a track-status write. -/
def isWriteStatusReq : StoreRequest → Bool
  | .writeTrackStatus _ _ => true
  | _ => false

/-- Tests whether a store request is an update-row insert. -/
def isInsertUpdateReq : StoreRequest → Bool
  | .insertUpdate _ => true
  | _ => false

/-- Claim C2: the append-update operation always issues the update-row insert as
its first request, and when that insert fails the store state is returned
unchanged and no track-status write request is issued at all. -/
theorem handleAddUpdate_insert_first (st : StoreState) (trackId : String)
    (form : UpdateForm) (userId newId : String) (now : Nat)
    (insertFails writeFails : Bool) :
    ((handleAddUpdate st trackId form userId newId now insertFails
        writeFails).2.head?.map isInsertUpdateReq) = some true ∧
    (insertFails = true →
      (handleAddUpdate st trackId form userId newId now insertFails
          writeFails).1 = st ∧
      ((handleAddUpdate st trackId form userId newId now insertFails
          writeFails).2.filter isWriteStatusReq) = []) := by
  cases insertFails <;>
    simp [handleAddUpdate, isInsertUpdateReq, isWriteStatusReq, List.filter]

/-- Witness for the claim C2 theorem at a concrete store with the insert
rejected: the state is unchanged and no status write is issued. -/
theorem handleAddUpdate_insert_first_witness :
    (true = true) ∧
    ((handleAddUpdate ⟨[sampleTrack], []⟩ "t1" ⟨"completed", "", ""⟩ "u1" "up1"
        5 true false).1 = ⟨[sampleTrack], []⟩ ∧
      ((handleAddUpdate ⟨[sampleTrack], []⟩ "t1" ⟨"completed", "", ""⟩ "u1"
          "up1" 5 true false).2.filter isWriteStatusReq) = []) :=
  ⟨rfl, (handleAddUpdate_insert_first ⟨[sampleTrack], []⟩ "t1"
    ⟨"completed", "", ""⟩ "u1" "up1" 5 true false).2 rfl⟩

/-- Claim C7: the edit-track operation never touches the track_updates table,
whether or not the store accepts the write: the table, and hence every track's
sequence of ledger entries, is exactly the same before and after the edit. -/
theorem handleUpdateTrack_ledger_unchanged (st : StoreState) (trackId : String)
    (form : EditForm) (now : Nat) (fails : Bool) :
    (handleUpdateTrack st trackId form now fails).track_updates =
      st.track_updates ∧
    ∀ tid : String,
      ((handleUpdateTrack st trackId form now fails).track_updates.filter
          fun u => u.track_id == tid) =
        (st.track_updates.filter fun u => u.track_id == tid) := by
  cases fails <;> simp [handleUpdateTrack]

/-- A post-creation operation on the store: an edit-track-fields action or an
append-update action, each carrying the failure pattern of its store requests. -/
inductive TrackOp where
  | edit (trackId : String) (form : EditForm) (now : Nat) (fails : Bool)
  | addUpdate (trackId : String) (form : UpdateForm) (userId newId : String)
      (now : Nat) (insertFails writeFails : Bool)

/-- The store state reached by running one operation. -/
def applyOp (st : StoreState) : TrackOp → StoreState
  | .edit tid f now fails => handleUpdateTrack st tid f now fails
  | .addUpdate tid f uid nid now i w => (handleAddUpdate st tid f uid nid now i w).1

/-- The store state reached by running a sequence of operations in order. -/
def applyOps (st : StoreState) (ops : List TrackOp) : StoreState :=
  ops.foldl applyOp st

/-- The identity projection of the tracks table: the id and tracking number of
each row, in table order. -/
def trackingNumbers (st : StoreState) : List (String × String) :=
  st.tracks.map fun t => (t.id, t.tracking_number)

/-- Neither an edit nor an append-update touches any id or tracking number. -/
theorem trackingNumbers_applyOp (st : StoreState) (op : TrackOp) :
    trackingNumbers (applyOp st op) = trackingNumbers st := by
  have key : ∀ (ts : List Track) (tid : String) (f : Track → Track) (now : Nat),
      (∀ t : Track, (f t).id = t.id ∧ (f t).tracking_number = t.tracking_number) →
      (updateTrackRows ts tid f now).map (fun t => (t.id, t.tracking_number)) =
        ts.map fun t => (t.id, t.tracking_number) := by
    intro ts tid f now hf
    simp only [updateTrackRows, List.map_map]
    refine List.map_congr_left fun t _ => ?_
    by_cases h : t.id = tid
    · simp only [Function.comp_apply, if_pos h]
      exact congrArg₂ Prod.mk (hf t).1 (hf t).2
    · simp only [Function.comp_apply, if_neg h]
  cases op with
  | edit tid f now fails =>
    cases fails
    · simpa [applyOp, handleUpdateTrack, trackingNumbers] using
        key st.tracks tid
          (fun t =>
            { t with title := f.title, description := f.description,
                     status := f.status, priority := f.priority })
          now (fun t => ⟨rfl, rfl⟩)
    · rfl
  | addUpdate tid f uid nid now i w =>
    cases i
    · cases w
      · simpa [applyOp, handleAddUpdate, trackingNumbers] using
          key st.tracks tid (fun t => { t with status := f.status }) now
            (fun t => ⟨rfl, rfl⟩)
      · rfl
    · rfl

/-- The identity projection is invariant under any operation sequence. -/
theorem trackingNumbers_applyOps (st : StoreState) (ops : List TrackOp) :
    trackingNumbers (applyOps st ops) = trackingNumbers st := by
  induction ops generalizing st with
  | nil => rfl
  | cons op ops ih =>
    calc trackingNumbers (applyOps (applyOp st op) ops)
        = trackingNumbers (applyOp st op) := ih (applyOp st op)
      _ = trackingNumbers st := trackingNumbers_applyOp st op

/-- Claim C6: a successful create assigns the freshly generated tracking number
to the new track row, and no sequence of post-creation operations (edits or
appended updates, each succeeding or failing arbitrarily) ever writes any
track's tracking number: the id-to-tracking-number projection of the table
after the operations equals the one right after creation. -/
theorem tracking_number_immutable (st : StoreState) (form : CreateForm)
    (userId newId : String) (now : Nat) (rnd : List Char) (ops : List TrackOp) :
    trackingNumbers (handleSubmit st form userId newId now rnd false).1 =
      (newId, String.mk (generateTrackingNumber now rnd)) :: trackingNumbers st ∧
    trackingNumbers
        (applyOps (handleSubmit st form userId newId now rnd false).1 ops) =
      trackingNumbers (handleSubmit st form userId newId now rnd false).1 := by
  exact ⟨by simp [handleSubmit, trackingNumbers], trackingNumbers_applyOps _ ops⟩

/-- Claim C9 counterexample: the submit handler of CreateTrack, invoked with an
empty title, nevertheless issues the track-insert request to the record store,
carrying the empty title verbatim; no missing-required-field check stops it. -/
theorem handleSubmit_empty_title_sends_request :
    ((handleSubmit ⟨[], []⟩ ⟨"", "", "pending", "medium"⟩ "u1" "t9" 0
        ['a', 'b', 'c', 'd'] false).2).length = 1 ∧
    (handleSubmit ⟨[], []⟩ ⟨"", "", "pending", "medium"⟩ "u1" "t9" 0
        ['a', 'b', 'c', 'd'] false).2 =
      [StoreRequest.insertTrack
        { id := "t9", title := "", description := "", status := "pending",
          priority := "medium",
          tracking_number :=
            String.mk (generateTrackingNumber 0 ['a', 'b', 'c', 'd']),
          user_id := "u1", created_at := 0, updated_at := 0 }] :=
  ⟨rfl, rfl⟩

/-- Claim C9 as amended: the submit handler itself performs no validation of the
required title (the missing-title case is blocked only by the browser-level
required attribute of the form input); whenever the handler runs with an empty
title it issues exactly one insert request, carrying the empty title. -/
theorem handleSubmit_no_title_validation (st : StoreState)
    (description status priority : String) (userId newId : String) (now : Nat)
    (rnd : List Char) (insertFails : Bool) :
    (handleSubmit st ⟨"", description, status, priority⟩ userId newId now rnd
        insertFails).2 =
      [StoreRequest.insertTrack
        { id := newId, title := "", description := description,
          status := status, priority := priority,
          tracking_number := String.mk (generateTrackingNumber now rnd),
          user_id := userId, created_at := now, updated_at := now }] := by
  cases insertFails <;> rfl

/-- loadTrackDetails from TrackDetail: fetches the track row matching the id and
the signed-in user (maybeSingle), together with the track's update rows ordered
by created_at descending. -/
def loadTrackDetails (st : StoreState) (trackId userId : String) :
    Option Track × List TrackUpdate :=
  (st.tracks.find? fun t => t.id == trackId && t.user_id == userId,
   (st.track_updates.filter fun u => u.track_id == trackId).mergeSort
     fun a b => decide (b.created_at ≤ a.created_at))

/-- The status badge the detail view renders for the track itself: TrackDetail
renders track.status from the loaded track row. -/
def displayedStatus (st : StoreState) (trackId userId : String) :
    Option String :=
  (loadTrackDetails st trackId userId).1.map Track.status

/-- The status of the newest ledger entry, the head of the updates list ordered
newest-first. -/
def latestUpdateStatus (st : StoreState) (trackId userId : String) :
    Option String :=
  ((loadTrackDetails st trackId userId).2.head?).map TrackUpdate.status

/-- Sample ledger row used in concrete counterexamples. -/
def sampleUpdate : TrackUpdate :=
  { id := "up1", track_id := "t1", status := "completed", message := "",
    location := "", user_id := "u1", created_at := 5 }

/-- Store state in which the track row's denormalized status (pending) lags its
only ledger entry's status (completed) — the partial-failure state reachable
when an append's status write is rejected. -/
def divergedStore : StoreState :=
  { tracks := [sampleTrack], track_updates := [sampleUpdate] }

/-- Claim C3 counterexample: on the diverged store the read path presents the
track row's status pending, not the latest ledger entry's status completed. -/
theorem displayedStatus_prefers_track_row :
    displayedStatus divergedStore "t1" "u1" = some "pending" ∧
    latestUpdateStatus divergedStore "t1" "u1" = some "completed" ∧
    displayedStatus divergedStore "t1" "u1" ≠
      latestUpdateStatus divergedStore "t1" "u1" := by
  have hf : divergedStore.track_updates.filter (fun u => u.track_id == "t1") =
      [sampleUpdate] := rfl
  have h1 : displayedStatus divergedStore "t1" "u1" = some "pending" := rfl
  have h2 : latestUpdateStatus divergedStore "t1" "u1" = some "completed" := by
    unfold latestUpdateStatus loadTrackDetails
    rw [hf, List.mergeSort_singleton]
    rfl
  refine ⟨h1, h2, ?_⟩
  rw [h1, h2]
  decide

/-- Claim C3 as amended: the read path presents the track row's denormalized
status field, and that presentation is entirely independent of the update
ledger — replacing the track_updates table by any other list leaves the
presented status unchanged, so when the two disagree the track row's status is
the one shown (ledger statuses appear only in the timeline entries). -/
theorem displayedStatus_ignores_ledger (st : StoreState)
    (ups : List TrackUpdate) (trackId userId : String) :
    displayedStatus { st with track_updates := ups } trackId userId =
      displayedStatus st trackId userId ∧
    displayedStatus st trackId userId =
      (st.tracks.find? fun t => t.id == trackId && t.user_id == userId).map
        Track.status :=
  ⟨rfl, rfl⟩

/-- The dashboard stats record (Dashboard component state): no field for the
cancelled status exists. -/
structure Stats where
  total : Nat
  pending : Nat
  inProgress : Nat
  completed : Nat
deriving DecidableEq

/-- loadStats from Dashboard: the length of the owner's track list and the
lengths of its pending, in_progress and completed filtrations. -/
def loadStats (tracks : List Track) : Stats :=
  { total := tracks.length
    pending := (tracks.filter fun t => t.status == "pending").length
    inProgress := (tracks.filter fun t => t.status == "in_progress").length
    completed := (tracks.filter fun t => t.status == "completed").length }

/-- Cancelled track rows used in the aggregate-counts counterexample. -/
def cancelledTrack1 : Track :=
  { sampleTrack with id := "c1", status := "cancelled" }

/-- Second cancelled track row for the aggregate-counts counterexample. -/
def cancelledTrack2 : Track :=
  { sampleTrack with id := "c2", status := "cancelled" }

/-- Claim C4 counterexample: on a track set holding two cancelled tracks and one
pending track, the aggregate result is total 3, pending 1, inProgress 0,
completed 0 — no component of the result equals the cancelled count 2, so the
operation does not return a count for each of the four fixed status values. -/
theorem loadStats_no_cancelled_count :
    (([cancelledTrack1, cancelledTrack2, sampleTrack].filter
        fun t => t.status == "cancelled").length = 2) ∧
    loadStats [cancelledTrack1, cancelledTrack2, sampleTrack] =
      { total := 3, pending := 1, inProgress := 0, completed := 0 } ∧
    (loadStats [cancelledTrack1, cancelledTrack2, sampleTrack]).total ≠ 2 ∧
    (loadStats [cancelledTrack1, cancelledTrack2, sampleTrack]).pending ≠ 2 ∧
    (loadStats [cancelledTrack1, cancelledTrack2, sampleTrack]).inProgress ≠ 2 ∧
    (loadStats [cancelledTrack1, cancelledTrack2, sampleTrack]).completed ≠ 2 := by
  decide

/-- With every status among the four fixed values, the list length splits into
the four per-status filtration lengths. -/
theorem track_length_partition (ts : List Track)
    (h : ∀ t ∈ ts, t.status = "pending" ∨ t.status = "in_progress" ∨
          t.status = "completed" ∨ t.status = "cancelled") :
    ts.length =
      (ts.filter fun t => t.status == "pending").length +
      (ts.filter fun t => t.status == "in_progress").length +
      (ts.filter fun t => t.status == "completed").length +
      (ts.filter fun t => t.status == "cancelled").length := by
  induction ts with
  | nil => rfl
  | cons t ts ih =>
    have ih2 := ih fun x hx => h x (List.mem_cons_of_mem _ hx)
    have ht := h t (List.mem_cons_self _ _)
    rcases ht with h1 | h1 | h1 | h1 <;>
      simp [List.filter_cons, h1] <;> omega

/-- Claim C4 as amended: the aggregate returns the total track count and the
per-status counts for pending, in_progress and completed only; no cancelled
count is part of the result, the cancelled count being recoverable only
implicitly as total minus the three returned counts when every status is one of
the four fixed values. -/
theorem loadStats_counts (ts : List Track)
    (h : ∀ t ∈ ts, t.status = "pending" ∨ t.status = "in_progress" ∨
          t.status = "completed" ∨ t.status = "cancelled") :
    (loadStats ts).total = ts.length ∧
    (loadStats ts).pending =
      (ts.filter fun t => t.status == "pending").length ∧
    (loadStats ts).inProgress =
      (ts.filter fun t => t.status == "in_progress").length ∧
    (loadStats ts).completed =
      (ts.filter fun t => t.status == "completed").length ∧
    (loadStats ts).total =
      (loadStats ts).pending + (loadStats ts).inProgress +
        (loadStats ts).completed +
        (ts.filter fun t => t.status == "cancelled").length := by
  refine ⟨rfl, rfl, rfl, rfl, ?_⟩
  simpa [loadStats] using track_length_partition ts h

/-- Witness for the amended claim C4 theorem on a concrete one-track set. -/
theorem loadStats_counts_witness :
    (loadStats [sampleTrack]).total = [sampleTrack].length ∧
    (loadStats [sampleTrack]).pending =
      ([sampleTrack].filter fun t => t.status == "pending").length ∧
    (loadStats [sampleTrack]).inProgress =
      ([sampleTrack].filter fun t => t.status == "in_progress").length ∧
    (loadStats [sampleTrack]).completed =
      ([sampleTrack].filter fun t => t.status == "completed").length ∧
    (loadStats [sampleTrack]).total =
      (loadStats [sampleTrack]).pending + (loadStats [sampleTrack]).inProgress +
        (loadStats [sampleTrack]).completed +
        ([sampleTrack].filter fun t => t.status == "cancelled").length :=
  loadStats_counts [sampleTrack] (by decide)

/-- The sortBy toggle of TrackList: date or title. -/
inductive SortBy where
  | date
  | title
deriving DecidableEq

/-- JavaScript String.prototype.includes: contiguous-substring test, modelled by
the infix relation on the character lists. -/
def jsIncludes (hay needle : String) : Bool :=
  decide (needle.data <:+: hay.data)

/-- JavaScript String.prototype.localeCompare, modelled as code-point
lexicographic comparison: negative, zero or positive as a comes before, ties
with or comes after b. -/
def localeCompare (a b : String) : Int :=
  if a < b then -1 else if b < a then 1 else 0

/-- The sort comparator of filterAndSortTracks as a may-precede test: for date,
the comparator getTime of b minus getTime of a is nonpositive exactly when
b.updated_at ≤ a.updated_at (most recently modified first); for title, when
localeCompare of the titles is nonpositive (title ascending). -/
def trackLE (sortBy : SortBy) (a b : Track) : Bool :=
  match sortBy with
  | .date => decide (b.updated_at ≤ a.updated_at)
  | .title => decide (localeCompare a.title b.title ≤ 0)

/-- filterAndSortTracks from TrackList: copies the track list, applies the
free-text filter when the query is nonempty (case-insensitive substring match
over title, tracking number and description), the status and priority equality
filters when not set to the all sentinel, and sorts by the selected key. -/
def filterAndSortTracks (tracks : List Track) (searchQuery : String)
    (statusFilter priorityFilter : String) (sortBy : SortBy) : List Track :=
  let filtered := tracks
  let filtered :=
    if searchQuery ≠ "" then
      let query := searchQuery.toLower
      filtered.filter fun track =>
        jsIncludes track.title.toLower query ||
        jsIncludes track.tracking_number.toLower query ||
        jsIncludes track.description.toLower query
    else filtered
  let filtered :=
    if statusFilter ≠ "all" then
      filtered.filter fun track => track.status == statusFilter
    else filtered
  let filtered :=
    if priorityFilter ≠ "all" then
      filtered.filter fun track => track.priority == priorityFilter
    else filtered
  filtered.mergeSort (trackLE sortBy)

/-- localeCompare is nonpositive exactly at the lexicographic less-or-equal. -/
theorem localeCompare_nonpos (a b : String) : localeCompare a b ≤ 0 ↔ a ≤ b := by
  unfold localeCompare
  split_ifs with h1 h2
  · simp [le_of_lt h1]
  · simp [not_le.mpr h2]
  · simp [le_of_not_lt h2]

/-- Both comparators are transitive. -/
theorem trackLE_trans (sortBy : SortBy) : ∀ a b c : Track,
    trackLE sortBy a b → trackLE sortBy b c → trackLE sortBy a c := by
  intro a b c hab hbc
  cases sortBy with
  | date =>
    simp only [trackLE, decide_eq_true_eq] at hab hbc ⊢
    omega
  | title =>
    simp only [trackLE, decide_eq_true_eq, localeCompare_nonpos] at hab hbc ⊢
    exact le_trans hab hbc

/-- Both comparators are total. -/
theorem trackLE_total (sortBy : SortBy) : ∀ a b : Track,
    trackLE sortBy a b || trackLE sortBy b a := by
  intro a b
  cases sortBy with
  | date =>
    simp only [trackLE, Bool.or_eq_true, decide_eq_true_eq]
    omega
  | title =>
    simp only [trackLE, Bool.or_eq_true, decide_eq_true_eq,
      localeCompare_nonpos]
    exact le_total a.title b.title

/-- Claim C8: for a nonempty query with both select filters at the all sentinel,
a track is in the filtered result exactly when it is in the input list and the
lowercased query occurs as a substring of its lowercased title, or of its
lowercased tracking number, or of its lowercased description. -/
theorem filterAndSortTracks_query_membership (tracks : List Track) (q : String)
    (sortBy : SortBy) (t : Track) (hq : q ≠ "") :
    t ∈ filterAndSortTracks tracks q "all" "all" sortBy ↔
      t ∈ tracks ∧
        (q.toLower.data <:+: t.title.toLower.data ∨
         q.toLower.data <:+: t.tracking_number.toLower.data ∨
         q.toLower.data <:+: t.description.toLower.data) := by
  simp [filterAndSortTracks, hq, jsIncludes, List.mem_filter, or_assoc]

/-- Witness for the claim C8 theorem at a concrete query and store: the sample
track's tracking number TRK-0-AAAA contains the query trk case-insensitively. -/
theorem filterAndSortTracks_query_membership_witness :
    sampleTrack ∈ filterAndSortTracks [sampleTrack] "TRK" "all" "all"
        SortBy.date ↔
      sampleTrack ∈ [sampleTrack] ∧
        (("TRK" : String).toLower.data <:+: sampleTrack.title.toLower.data ∨
         ("TRK" : String).toLower.data <:+:
            sampleTrack.tracking_number.toLower.data ∨
         ("TRK" : String).toLower.data <:+:
            sampleTrack.description.toLower.data) :=
  filterAndSortTracks_query_membership [sampleTrack] "TRK" SortBy.date
    sampleTrack (by decide)

/-- Claim C10: with an empty query and both select filters at the all sentinel,
the operation is the identity up to ordering: the result is a permutation of
the input list (the code copies the input array before sorting, leaving the
input unmutated), re-sorted by the selected sort key. -/
theorem filterAndSortTracks_all_perm (tracks : List Track) (sortBy : SortBy) :
    List.Perm (filterAndSortTracks tracks "" "all" "all" sortBy) tracks ∧
    (filterAndSortTracks tracks "" "all" "all" sortBy).Pairwise
      fun a b => trackLE sortBy a b = true := by
  have he : filterAndSortTracks tracks "" "all" "all" sortBy =
      tracks.mergeSort (trackLE sortBy) := by
    simp [filterAndSortTracks]
  rw [he]
  exact ⟨List.mergeSort_perm tracks _,
    List.sorted_mergeSort (fun a b c => trackLE_trans sortBy a b c)
      (trackLE_total sortBy) tracks⟩
